import Mathlib

/-!
Verification development for the guidemode/cli repository.

This file gives a shallow embedding of the two core protocols of the CLI:
the credential-acquisition flow (src/auth.ts together with src/config.ts)
and the sync engine (the sync module concatenated inside src/cli.ts,
together with src/utils/git.ts and src/utils/logger.ts), and proves the
frozen claims about them.

Modelling conventions:
- JavaScript string truthiness is modelled by explicit emptiness tests
  (`truthyS`, `truthyO`); `a || b` on strings becomes `sorr` / `torr`.
- Machine effects that the code delegates to the runtime or the network
  (stdin contents, JSON.parse results, file system stat/read, the three
  fetch calls, SHA-256, gzip, git subprocesses) are supplied by an
  environment record; each fallible operation is an `Except String`
  value, where `.error e` models a thrown exception / rejected promise
  with message `e`.
- A run of `runSync` produces either `.error e` (an exception escaped to
  the caller) or `.ok t` where the trace `t` records the log lines
  written and which remote calls were made.
-/

/-- JavaScript truthiness of a string: only the empty string is falsy. -/
def truthyS (s : String) : Bool := s != ""

/-- JavaScript truthiness of a possibly-undefined string. -/
def truthyO : Option String → Bool
  | some s => truthyS s
  | none => false

/-- JavaScript `a || b` for a string `a` and string default `b`. -/
def sorr (a b : String) : String := if truthyS a then a else b

/-- JavaScript `a || b` for a possibly-undefined string `a`. -/
def torr (a : Option String) (b : String) : String :=
  match a with
  | some s => if truthyS s then s else b
  | none => b

/-- The persisted configuration record (GuideModeConfig in src/config.ts).
All fields are optional in the JSON file. -/
structure GuideModeConfig where
  apiKey : Option String := none
  serverUrl : Option String := none
  username : Option String := none
  name : Option String := none
  avatarUrl : Option String := none
  tenantId : Option String := none
  tenantName : Option String := none
  syncHooks : Option (List String) := none
deriving DecidableEq

/-- DEFAULT_SYNC_HOOKS from src/config.ts. -/
def DEFAULT_SYNC_HOOKS : List String := ["Stop", "PreCompact", "SessionEnd"]

/-- The process environment variables consulted by src/config.ts. -/
structure ProcessEnv where
  guidemodeApiKey : Option String := none
  guidemodeServiceUrl : Option String := none
deriving DecidableEq

/-- getApiKey from src/config.ts: the GUIDEMODE_API_KEY environment
variable takes precedence, otherwise the persisted apiKey. -/
def getApiKey (penv : ProcessEnv) (config : GuideModeConfig) : Option String :=
  if truthyO penv.guidemodeApiKey then penv.guidemodeApiKey
  else config.apiKey

/-- getServerUrl from src/config.ts: the GUIDEMODE_SERVICE_URL environment
variable takes precedence, otherwise the persisted serverUrl, otherwise
the default server URL. -/
def getServerUrl (penv : ProcessEnv) (config : GuideModeConfig) : String :=
  match penv.guidemodeServiceUrl with
  | some s => if truthyS s then s else torr config.serverUrl "https://app.guidemode.dev"
  | none => torr config.serverUrl "https://app.guidemode.dev"

/-- clearConfig from src/config.ts writes the empty record. -/
def clearedConfig : GuideModeConfig := {}

/-- logoutFlow from src/auth.ts, viewed as a transformation of the
persisted store: if no apiKey is present it prints a message and returns
without touching the store; otherwise it clears the store. -/
def logoutFlow (store : GuideModeConfig) : GuideModeConfig :=
  if truthyO store.apiKey then clearedConfig else store

/-- GitMetadata from src/utils/git.ts. `commitHash` is the output of
`git rev-parse HEAD` (the current HEAD commit), or null on failure. -/
structure GitMetadata where
  remoteUrl : Option String := none
  branch : Option String := none
  commitHash : Option String := none
  repoName : String := "unknown"
deriving DecidableEq

/-- The optional CLI arguments accepted by runSync (SyncOptions). -/
structure SyncOptions where
  sessionId : Option String := none
  transcriptPath : Option String := none
  cwd : Option String := none
  hookEvent : Option String := none
deriving DecidableEq

/-- The resolved sync input (SyncInput in the sync module). -/
structure SyncInput where
  sessionId : String
  transcriptPath : String
  cwd : String
  hookEvent : String
deriving DecidableEq

/-- The fields of a parsed hook stdin JSON payload; a missing field is
`none` (parseStdin then defaults it to the empty string). -/
structure StdinPayload where
  session_id : Option String := none
  transcript_path : Option String := none
  cwd : Option String := none
  hook_event_name : Option String := none
deriving DecidableEq

deriving instance DecidableEq for Except

/-- The dedup check-hash response: HTTP status, `ok` flag and the result
of `response.json()` projected to the optional `needsUpload` field
(`.error` models `json()` itself throwing). -/
structure CheckResp where
  ok : Bool
  status : Nat
  json : Except String (Option Bool) := .ok none
deriving DecidableEq

/-- A generic HTTP response as seen by the upload and processing-trigger
calls: status, `ok` flag and the body text read on failure. -/
structure HttpResp where
  ok : Bool
  status : Nat
  body : String := ""
deriving DecidableEq

/-- The repositoryMetadata sub-object of the upload payload. -/
structure RepoMetadata where
  cwd : String
  gitRemoteUrl : Option String
  detectedRepositoryType : String
deriving DecidableEq

/-- The upload-v2 request body built by runSync (lines 490-507 of the
sync module). Optional fields model the conditional object spreads. -/
structure UploadPayload where
  provider : String
  repositoryName : String
  sessionId : String
  fileName : String
  fileHash : String
  content : String
  contentEncoding : String
  fileSize : Nat
  gitBranch : Option String
  latestCommitHash : Option String
  firstCommitHash : Option String
  repositoryMetadata : RepoMetadata
deriving DecidableEq

/-- The environment a single runSync invocation executes against: stdin,
persisted config, file system, crypto/compression primitives and the
responses of the three outbound HTTP calls. An `.error` response models
a rejected fetch (network error, or the 30 s AbortController timeout
which the code surfaces as the same rejection). -/
structure SyncEnv where
  processCwd : String := ""
  stdinRaw : String := ""
  stdinParsed : Option StdinPayload := none
  config : GuideModeConfig := {}
  statOk : Bool := false
  readFileResult : Except String (List Nat) := .error ""
  sha256 : List Nat → String := fun _ => ""
  gzipBase64 : List Nat → String := fun _ => ""
  checkFetch : Except String CheckResp := .error ""
  uploadFetch : Except String HttpResp := .error ""
  triggerFetch : Except String HttpResp := .error ""
  gitMeta : GitMetadata := {}
  detectedType : String := "generic"

/-- Observable trace of one runSync invocation: the log lines appended
to the plugin-upload log, the resolved hook event, which remote calls
were issued, the bearer credential they carried, and the upload payload
if one was built. -/
structure SyncTrace where
  logs : List (String × String) := []
  hookEvent : Option String := none
  checkCalled : Bool := false
  bearer : Option String := none
  uploadCalled : Bool := false
  triggerCalls : Nat := 0
  payload : Option UploadPayload := none
deriving DecidableEq

/-- triggerProcessing from the sync module: wraps its fetch in its own
try/catch, so it only produces log lines and never throws. -/
def triggerProcessing (sessionId hookEvent : String)
    (resp : Except String HttpResp) : List (String × String) :=
  match resp with
  | .ok r =>
    if r.ok then
      [("INFO", "[" ++ hookEvent ++ "] Triggered processing for session " ++ sessionId)]
    else
      [("WARN", "[" ++ hookEvent ++ "] Processing trigger returned HTTP "
        ++ toString r.status ++ ": " ++ r.body)]
  | .error e =>
    [("WARN", "[" ++ hookEvent ++ "] Processing trigger failed for session "
      ++ sessionId ++ ": " ++ e)]

/-- The upload payload object literal of runSync (lines 490-507): the
gitBranch / latestCommitHash / firstCommitHash fields are added by
conditional spreads guarded by the truthiness of the corresponding
GitMetadata field, and both commit-hash fields spread the same
`gitMeta.commitHash` value. -/
def buildPayload (input : SyncInput) (gitMeta : GitMetadata)
    (detectedRepoType : String) (fileHash content : String)
    (fileSize : Nat) : UploadPayload :=
  { provider := "claude-code"
    repositoryName := gitMeta.repoName
    sessionId := input.sessionId
    fileName := input.sessionId ++ ".jsonl"
    fileHash := fileHash
    content := content
    contentEncoding := "gzip"
    fileSize := fileSize
    gitBranch := if truthyO gitMeta.branch then gitMeta.branch else none
    latestCommitHash := if truthyO gitMeta.commitHash then gitMeta.commitHash else none
    firstCommitHash := if truthyO gitMeta.commitHash then gitMeta.commitHash else none
    repositoryMetadata :=
      { cwd := sorr input.cwd "."
        gitRemoteUrl := gitMeta.remoteUrl
        detectedRepositoryType := detectedRepoType } }

/-- Input resolution of runSync (lines 381-409): CLI-argument mode when
both sessionId and transcriptPath options are truthy, otherwise stdin
mode; `.error t` is an early log-and-return with trace `t`. -/
def resolveInput (options : Option SyncOptions) (env : SyncEnv) :
    Except SyncTrace SyncInput :=
  let args : Option SyncInput :=
    match options with
    | some o =>
      if truthyO o.sessionId && truthyO o.transcriptPath then
        some { sessionId := torr o.sessionId ""
               transcriptPath := torr o.transcriptPath ""
               cwd := torr o.cwd env.processCwd
               hookEvent := torr o.hookEvent "Manual" }
      else none
    | none => none
  match args with
  | some input =>
    if !(truthyS input.sessionId) || !(truthyS input.transcriptPath) then
      .error { logs := [("ERROR", "Missing session_id or transcript_path in input")] }
    else
      .ok input
  | none =>
    if !(truthyS env.stdinRaw) then
      .error { logs := [("ERROR", "No input received on stdin")] }
    else
      match env.stdinParsed with
      | none =>
        .error { logs := [("ERROR", "Failed to parse stdin JSON")] }
      | some d =>
        let input : SyncInput :=
          { sessionId := torr d.session_id ""
            transcriptPath := torr d.transcript_path ""
            cwd := torr d.cwd ""
            hookEvent := torr d.hook_event_name "" }
        if !(truthyS input.sessionId) || !(truthyS input.transcriptPath) then
          .error { logs := [("ERROR", "Missing session_id or transcript_path in input")] }
        else
          .ok input

/-- The upload phase of runSync (lines 480-545): compress, gather git
metadata, build the payload, POST it, and on SessionEnd success invoke
the processing trigger. The fetch is inside try/catch, so this phase
always returns a trace. -/
def uploadPhase (input : SyncInput) (env : SyncEnv) (apiKey : String)
    (logs0 : List (String × String)) (fileContent : List Nat)
    (fileHash : String) : SyncTrace :=
  let hookEvent := input.hookEvent
  let content := env.gzipBase64 fileContent
  let fileSize := fileContent.length
  let gitMeta := env.gitMeta
  let detectedRepoType := env.detectedType
  let payload := buildPayload input gitMeta detectedRepoType fileHash content fileSize
  match env.uploadFetch with
  | .error e =>
    { logs := logs0 ++ [("ERROR", "[" ++ hookEvent ++ "] Upload request failed: " ++ e)]
      hookEvent := some hookEvent
      checkCalled := true
      bearer := some apiKey
      uploadCalled := true
      payload := some payload }
  | .ok r =>
    if r.ok then
      let okLog := ("INFO", "[" ++ hookEvent ++ "] Successfully uploaded session "
        ++ input.sessionId ++ " (HTTP " ++ toString r.status ++ ")")
      if hookEvent = "SessionEnd" then
        { logs := logs0 ++ [okLog]
            ++ triggerProcessing input.sessionId hookEvent env.triggerFetch
          hookEvent := some hookEvent
          checkCalled := true
          bearer := some apiKey
          uploadCalled := true
          triggerCalls := 1
          payload := some payload }
      else
        { logs := logs0 ++ [okLog]
          hookEvent := some hookEvent
          checkCalled := true
          bearer := some apiKey
          uploadCalled := true
          payload := some payload }
    else
      { logs := logs0 ++ [("ERROR", "[" ++ hookEvent ++ "] Upload failed with HTTP "
          ++ toString r.status ++ ": " ++ r.body)]
        hookEvent := some hookEvent
        checkCalled := true
        bearer := some apiKey
        uploadCalled := true
        payload := some payload }

/-- The body of runSync after input resolution (lines 411-545): the
credential gate, the hook-enablement gate, the transcript stat gate,
the hash computation (where the un-try-wrapped readFile can throw),
the dedup check and the upload phase. -/
def runSyncWithInput (input : SyncInput) (env : SyncEnv) :
    Except String SyncTrace :=
  let hookEvent := input.hookEvent
  let config := env.config
  if !(truthyO config.apiKey) || !(truthyO config.serverUrl) then
    .ok { logs := [("INFO", "No apiKey or serverUrl in config - skipping upload (run setup first)")]
          hookEvent := some hookEvent }
  else
    let enabledHooks := config.syncHooks.getD DEFAULT_SYNC_HOOKS
    if truthyS hookEvent && !(enabledHooks.contains hookEvent) && hookEvent != "Manual" then
      .ok { logs := [("INFO", "Hook " ++ hookEvent ++ " not enabled in syncHooks config - skipping")]
            hookEvent := some hookEvent }
    else if !env.statOk then
      .ok { logs := [("ERROR", "Transcript file not found: " ++ input.transcriptPath)]
            hookEvent := some hookEvent }
    else
      let logs0 := [("INFO", "[" ++ hookEvent ++ "] Processing session "
        ++ input.sessionId ++ " from " ++ input.transcriptPath)]
      let apiKey := config.apiKey.getD ""
      match env.readFileResult with
      | .error e => .error e
      | .ok fileContent =>
        let fileHash := env.sha256 fileContent
        match env.checkFetch with
        | .error e =>
          .ok { logs := logs0 ++ [("ERROR", "Hash check request failed: " ++ e)]
                hookEvent := some hookEvent
                checkCalled := true
                bearer := some apiKey }
        | .ok resp =>
          if resp.ok then
            match resp.json with
            | .error e =>
              .ok { logs := logs0 ++ [("ERROR", "Hash check request failed: " ++ e)]
                    hookEvent := some hookEvent
                    checkCalled := true
                    bearer := some apiKey }
            | .ok needsUpload =>
              if needsUpload = some false then
                let skipLog := ("INFO", "[" ++ hookEvent ++ "] Session " ++ input.sessionId
                  ++ " unchanged (hash match) - skipping upload")
                if hookEvent = "SessionEnd" then
                  .ok { logs := logs0 ++ [skipLog]
                          ++ triggerProcessing input.sessionId hookEvent env.triggerFetch
                        hookEvent := some hookEvent
                        checkCalled := true
                        bearer := some apiKey
                        triggerCalls := 1 }
                else
                  .ok { logs := logs0 ++ [skipLog]
                        hookEvent := some hookEvent
                        checkCalled := true
                        bearer := some apiKey }
              else
                .ok (uploadPhase input env apiKey logs0 fileContent fileHash)
          else
            let warnLog := ("WARN", "Hash check returned " ++ toString resp.status
              ++ " - proceeding with upload")
            .ok (uploadPhase input env apiKey (logs0 ++ [warnLog]) fileContent fileHash)

/-- runSync from the sync module (lines 381-545). -/
def runSync (options : Option SyncOptions) (env : SyncEnv) :
    Except String SyncTrace :=
  match resolveInput options env with
  | .error t => .ok t
  | .ok input => runSyncWithInput input env

/-! ## Credential acquisition flow (src/auth.ts) -/

/-- The parsed URL of one HTTP request received by the local callback
listener: pathname and the query parameters the handler reads.
`none` for a parameter models `searchParams.get` returning null;
a request whose `url` is absent is answered 400 by the handler. -/
structure CbUrl where
  pathname : String
  key : Option String := none
  tenantId : Option String := none
  tenantName : Option String := none
  error : Option String := none
deriving DecidableEq

/-- One HTTP request received by the callback listener. -/
structure CbRequest where
  url : Option CbUrl := none
deriving DecidableEq

/-- The data carried by a successful auth callback. -/
structure CallbackData where
  apiKey : String
  tenantId : Option String := none
  tenantName : Option String := none
deriving DecidableEq

/-- State of one acquisition attempt around the waitForCallback promise:
whether each one-shot event listener has fired, and the settled value of
the promise (`none` while pending). Settling is first-wins: a resolve or
reject on an already-settled promise is a no-op. -/
structure WaitState where
  successUsed : Bool := false
  errorUsed : Bool := false
  settled : Option (Except String CallbackData) := none
deriving DecidableEq

/-- Emitting auth-success: the `server.once` listener fires at most
once; its body clears the timer and resolves the promise (a no-op when
the promise has already settled). -/
def emitAuthSuccess (s : WaitState) (d : CallbackData) : WaitState :=
  if s.successUsed then s
  else
    { s with
      successUsed := true
      settled := match s.settled with
        | some r => some r
        | none => some (.ok d) }

/-- Emitting auth-error: the `server.once` listener fires at most once;
its body clears the timer and rejects the promise (a no-op when the
promise has already settled). -/
def emitAuthError (s : WaitState) (e : String) : WaitState :=
  if s.errorUsed then s
  else
    { s with
      errorUsed := true
      settled := match s.settled with
        | some r => some r
        | none => some (.error e) }

/-- The request handler of startCallbackServer (lines 120-168 of
src/auth.ts): a missing url is answered 400; on /callback a truthy
`error` parameter emits auth-error (status 400), otherwise a truthy
`key` parameter emits auth-success (status 200); everything else is
answered 404 and leaves the state untouched. -/
def handleRequest (s : WaitState) (req : CbRequest) : WaitState × Nat :=
  match req.url with
  | none => (s, 400)
  | some url =>
    if url.pathname = "/callback" then
      if truthyO url.error then
        (emitAuthError s (url.error.getD ""), 400)
      else if truthyO url.key then
        (emitAuthSuccess s
          { apiKey := url.key.getD ""
            tenantId := url.tenantId
            tenantName := url.tenantName }, 200)
      else (s, 404)
    else (s, 404)

/-- Processing of the request sequence received during one attempt, in
arrival order, starting from the pristine state. -/
def processRequests (reqs : List CbRequest) : WaitState :=
  reqs.foldl (fun s r => (handleRequest s r).1) {}

/-- A request is meaningful when it is a /callback request carrying a
truthy error or a truthy key parameter; only these emit events. -/
def isMeaningful (req : CbRequest) : Bool :=
  match req.url with
  | some url => url.pathname = "/callback" && (truthyO url.error || truthyO url.key)
  | none => false

/-- The settlement a meaningful request produces (the handler checks the
error parameter before the key parameter). -/
def interpret (req : CbRequest) : Option (Except String CallbackData) :=
  match req.url with
  | some url =>
    if url.pathname = "/callback" then
      if truthyO url.error then some (.error (url.error.getD ""))
      else if truthyO url.key then
        some (.ok { apiKey := url.key.getD ""
                    tenantId := url.tenantId
                    tenantName := url.tenantName })
      else none
    else none
  | none => none

/-- waitForCallback (lines 183-207 of src/auth.ts): given the requests
that arrive before the 5-minute deadline, the promise resolves with the
settled value, or rejects with the timeout error if nothing settled it. -/
def waitForCallback (reqs : List CbRequest) : Except String CallbackData :=
  match (processRequests reqs).settled with
  | some (.ok d) => .ok d
  | some (.error e) => .error e
  | none => .error "Authentication timeout (5 minutes)"

/-- The identity response of GET {server}/auth/session as consumed by
getUserInfo: `ok`/status of the HTTP response plus the decoded JSON
fields. -/
structure SessionResp where
  ok : Bool
  status : Nat
  statusText : String := ""
  authenticated : Option Bool := none
  userUsername : Option String := none
  userName : Option String := none
  userAvatarUrl : Option String := none
deriving DecidableEq

/-- The user identity returned by getUserInfo. -/
structure UserInfo where
  username : String
  name : String
  avatarUrl : String
deriving DecidableEq

/-- getUserInfo (lines 209-237 of src/auth.ts): throws on a network
failure, on a non-OK response, and on a body without
`authenticated: true` and a user object; otherwise returns the identity
with empty-string defaults. -/
def getUserInfo (resp : Except String SessionResp) : Except String UserInfo :=
  match resp with
  | .error e => .error e
  | .ok r =>
    if !r.ok then
      .error ("Failed to get user info: " ++ toString r.status ++ " " ++ r.statusText)
    else
      match r.authenticated, r.userUsername with
      | some true, some username =>
        .ok { username := username
              name := torr r.userName ""
              avatarUrl := torr r.userAvatarUrl "" }
      | _, _ => .error "Invalid API key or user not found"

/-- The environment one loginFlow invocation executes against: whether
opening the browser succeeded, the callback requests arriving before the
deadline, and the identity-endpoint response. The flow is modelled from
the point where startCallbackServer has returned a bound listener. -/
structure AuthEnv where
  openResult : Except String Unit := .ok ()
  requests : List CbRequest := []
  sessionResp : Except String SessionResp := .error ""

/-- Observable outcome of one loginFlow invocation: the result
propagated to the caller, whether the listener was closed, and the
persisted store after the attempt. -/
structure LoginOutcome where
  result : Except String Unit
  serverClosed : Bool
  store : GuideModeConfig
deriving DecidableEq

/-- updateConfig as called from loginFlow (lines 38-46 of src/auth.ts):
spread-merge of the full credential record into the loaded config. -/
def updateConfigLogin (c : GuideModeConfig) (serverUrl : String)
    (cb : CallbackData) (ui : UserInfo) : GuideModeConfig :=
  { c with
    apiKey := some cb.apiKey
    serverUrl := some serverUrl
    username := some ui.username
    name := some ui.name
    avatarUrl := some ui.avatarUrl
    tenantId := cb.tenantId
    tenantName := cb.tenantName }

/-- loginFlow (lines 11-63 of src/auth.ts): open the browser, wait for
the callback, reject an empty apiKey, fetch the identity, and persist
the merged credential; any failure in the try block propagates to the
caller with the store untouched, and the finally clause closes the
listener on every exit path. -/
def loginFlow (serverUrl : String) (store : GuideModeConfig)
    (env : AuthEnv) : LoginOutcome :=
  let body : Except String GuideModeConfig :=
    match env.openResult with
    | .error e => .error e
    | .ok _ =>
      match waitForCallback env.requests with
      | .error e => .error e
      | .ok cb =>
        if !(truthyS cb.apiKey) then
          .error "No API key received from callback"
        else
          match getUserInfo env.sessionResp with
          | .error e => .error e
          | .ok ui => .ok (updateConfigLogin store serverUrl cb ui)
  match body with
  | .ok newStore => { result := .ok (), serverClosed := true, store := newStore }
  | .error e => { result := .error e, serverClosed := true, store := store }

/-! ## Concrete inputs used by witnesses and counterexamples -/

/-- A CLI invocation whose transcript passes the stat gate but whose
readFile rejects (for example the file is made unreadable, or deleted,
between the stat call and the read). -/
def optsC1 : SyncOptions :=
  { sessionId := some "sess-1", transcriptPath := some "/tmp/sess-1.jsonl" }

/-- Environment for `optsC1`: valid credentials, stat succeeds, read
throws. -/
def envC1 : SyncEnv :=
  { config := { apiKey := some "gm_key", serverUrl := some "https://srv" }
    statOk := true
    readFileResult := .error "EACCES: permission denied, open /tmp/sess-1.jsonl" }

/-- A SessionEnd invocation whose dedup check reports needsUpload false. -/
def optsW2 : SyncOptions :=
  { sessionId := some "sess-2", transcriptPath := some "/tmp/sess-2.jsonl",
    cwd := some "/repo", hookEvent := some "SessionEnd" }

/-- Environment for `optsW2`. -/
def envW2 : SyncEnv :=
  { config := { apiKey := some "gm_key", serverUrl := some "https://srv" }
    statOk := true
    readFileResult := .ok [104, 105]
    checkFetch := .ok { ok := true, status := 200, json := .ok (some false) }
    triggerFetch := .ok { ok := true, status := 200 } }

/-- The trace produced by running `optsW2` against `envW2`. -/
def tW2 : SyncTrace :=
  { logs := [("INFO", "[SessionEnd] Processing session sess-2 from /tmp/sess-2.jsonl"),
             ("INFO", "[SessionEnd] Session sess-2 unchanged (hash match) - skipping upload"),
             ("INFO", "[SessionEnd] Triggered processing for session sess-2")]
    hookEvent := some "SessionEnd"
    checkCalled := true
    bearer := some "gm_key"
    uploadCalled := false
    triggerCalls := 1 }

/-- A Stop invocation whose dedup check rejects with a network error. -/
def optsW3 : SyncOptions :=
  { sessionId := some "sess-3", transcriptPath := some "/tmp/sess-3.jsonl",
    hookEvent := some "Stop" }

/-- Environment for `optsW3`. -/
def envW3 : SyncEnv :=
  { config := { apiKey := some "gm_key", serverUrl := some "https://srv" }
    statOk := true
    readFileResult := .ok [104, 105]
    checkFetch := .error "fetch failed" }

/-- The trace produced by running `optsW3` against `envW3`. -/
def tW3 : SyncTrace :=
  { logs := [("INFO", "[Stop] Processing session sess-3 from /tmp/sess-3.jsonl"),
             ("ERROR", "Hash check request failed: fetch failed")]
    hookEvent := some "Stop"
    checkCalled := true
    bearer := some "gm_key"
    uploadCalled := false
    triggerCalls := 0 }

/-- A Stop invocation with syncHooks restricted to SessionEnd only. -/
def optsW4 : SyncOptions :=
  { sessionId := some "sess-4w", transcriptPath := some "/tmp/sess-4w.jsonl",
    hookEvent := some "Stop" }

/-- Environment for `optsW4`: enabled hooks are just SessionEnd. -/
def envW4 : SyncEnv :=
  { config := { apiKey := some "gm_key", serverUrl := some "https://srv",
                syncHooks := some ["SessionEnd"] } }

/-- The trace produced by running `optsW4` against `envW4`. -/
def tW4 : SyncTrace :=
  { logs := [("INFO", "Hook Stop not enabled in syncHooks config - skipping")]
    hookEvent := some "Stop" }

/-- A stdin hook payload that omits hook_event_name entirely, so the
resolved hook event is the empty string. -/
def envX4 : SyncEnv :=
  { stdinRaw := "\x7b\"session_id\":\"sess-4\",\"transcript_path\":\"/tmp/sess-4.jsonl\",\"cwd\":\"/tmp\"\x7d"
    stdinParsed := some { session_id := some "sess-4",
                          transcript_path := some "/tmp/sess-4.jsonl",
                          cwd := some "/tmp" }
    config := { apiKey := some "gm_key", serverUrl := some "https://srv" }
    statOk := true
    readFileResult := .ok [104]
    checkFetch := .error "network unreachable" }

/-- A process environment carrying both credential overrides. -/
def penvW5 : ProcessEnv :=
  { guidemodeApiKey := some "env-key", guidemodeServiceUrl := some "https://env.example" }

/-- A persisted store holding different credentials than `penvW5`. -/
def configW5 : GuideModeConfig :=
  { apiKey := some "stored-key", serverUrl := some "https://stored.example" }

/-- A Stop invocation used to observe the bearer credential of the sync
engine remote calls. -/
def optsW5 : SyncOptions :=
  { sessionId := some "sess-5", transcriptPath := some "/tmp/sess-5.jsonl",
    hookEvent := some "Stop" }

/-- Environment for `optsW5`: persisted store `configW5`, dedup check
rejects so the run terminates right after the first remote call. -/
def envW5 : SyncEnv :=
  { config := configW5
    statOk := true
    readFileResult := .ok [104]
    checkFetch := .error "boom" }

/-- The trace produced by running `optsW5` against `envW5`. -/
def tW5 : SyncTrace :=
  { logs := [("INFO", "[Stop] Processing session sess-5 from /tmp/sess-5.jsonl"),
             ("ERROR", "Hash check request failed: boom")]
    hookEvent := some "Stop"
    checkCalled := true
    bearer := some "stored-key"
    uploadCalled := false
    triggerCalls := 0 }

/-- The process environment of the `syncEngine_ignores_env_override`
counterexample: an API-key override is set. -/
def penvX5 : ProcessEnv := { guidemodeApiKey := some "gm_env_override" }

/-- Environment for the counterexample run: the persisted store has a
serverUrl but no apiKey, and the API-key override is set in `penvX5`. -/
def envX5 : SyncEnv := { config := { serverUrl := some "https://srv" } }

/-- A manual CLI invocation for the counterexample run. -/
def optsX5 : SyncOptions :=
  { sessionId := some "sess-x5", transcriptPath := some "/tmp/sess-x5.jsonl" }

/-- An acquisition attempt during which no callback request arrives
before the deadline. -/
def envW6 : AuthEnv :=
  { openResult := .ok (), requests := [], sessionResp := .error "unused" }

/-- A noise request (favicon fetch) to the callback listener. -/
def rqW7c : CbRequest := { url := some { pathname := "/favicon.ico" } }

/-- A success callback request carrying an API key. -/
def rqW7a : CbRequest := { url := some { pathname := "/callback", key := some "key-7" } }

/-- An error callback request arriving after the success request. -/
def rqW7b : CbRequest := { url := some { pathname := "/callback", error := some "denied" } }

/-- An acquisition attempt that receives a token but whose identity
fetch rejects with a network error. -/
def envW8 : AuthEnv :=
  { openResult := .ok ()
    requests := [{ url := some { pathname := "/callback", key := some "key-8" } }]
    sessionResp := .error "fetch failed" }

/-- A store holding a credential plus identity fields. -/
def sW9 : GuideModeConfig := { apiKey := some "gm_key9", username := some "alice" }

/-- A store with no apiKey but a persisted serverUrl and username:
reachable by hand-editing the shared config file or via partial writes
from other tools sharing it. -/
def storeX9 : GuideModeConfig :=
  { serverUrl := some "https://app.guidemode.dev", username := some "alice" }

/-- A Stop invocation that needs an upload (dedup check says so). -/
def optsW10 : SyncOptions :=
  { sessionId := some "sess-10", transcriptPath := some "/tmp/sess-10.jsonl",
    cwd := some "/repo", hookEvent := some "Stop" }

/-- Environment for `optsW10`: dedup requires upload, upload succeeds,
git metadata carries a HEAD commit hash. -/
def envW10 : SyncEnv :=
  { config := { apiKey := some "gm_key", serverUrl := some "https://srv" }
    statOk := true
    readFileResult := .ok [104, 105]
    sha256 := fun _ => "deadbeef"
    gzipBase64 := fun _ => "H4sIAAAA"
    checkFetch := .ok { ok := true, status := 200, json := .ok (some true) }
    uploadFetch := .ok { ok := true, status := 200 }
    gitMeta := { remoteUrl := some "https://github.com/test/repo", branch := some "main",
                 commitHash := some "abc123", repoName := "test/repo" }
    detectedType := "nodejs" }

/-- The payload built by running `optsW10` against `envW10`. -/
def pW10 : UploadPayload :=
  { provider := "claude-code"
    repositoryName := "test/repo"
    sessionId := "sess-10"
    fileName := "sess-10.jsonl"
    fileHash := "deadbeef"
    content := "H4sIAAAA"
    contentEncoding := "gzip"
    fileSize := 2
    gitBranch := some "main"
    latestCommitHash := some "abc123"
    firstCommitHash := some "abc123"
    repositoryMetadata := { cwd := "/repo"
                            gitRemoteUrl := some "https://github.com/test/repo"
                            detectedRepositoryType := "nodejs" } }

/-- The trace produced by running `optsW10` against `envW10`. -/
def tW10 : SyncTrace :=
  { logs := [("INFO", "[Stop] Processing session sess-10 from /tmp/sess-10.jsonl"),
             ("INFO", "[Stop] Successfully uploaded session sess-10 (HTTP 200)")]
    hookEvent := some "Stop"
    checkCalled := true
    bearer := some "gm_key"
    uploadCalled := true
    triggerCalls := 0
    payload := some pW10 }

/-! ## Helper lemmas -/

/-- A truthy optional string is `some` of its default-extracted value. -/
theorem truthyO_some_getD (o : Option String) (h : truthyO o = true) :
    some (o.getD "") = o := by
  cases o <;> simp_all [truthyO]

/-- A request that is not meaningful leaves the listener state unchanged. -/
theorem handleRequest_not_meaningful (s : WaitState) (r : CbRequest)
    (h : isMeaningful r = false) : (handleRequest s r).1 = s := by
  unfold handleRequest
  cases hu : r.url with
  | none => rfl
  | some url =>
    unfold isMeaningful at h
    rw [hu] at h
    by_cases hp : url.pathname = "/callback"
    · simp [hp] at h
      simp [hp, h.1, h.2]
    · simp [hp]

/-- Once the promise has settled, no further request changes its value. -/
theorem handleRequest_settled_stable (s : WaitState) (r : CbRequest)
    (v : Except String CallbackData) (h : s.settled = some v) :
    ((handleRequest s r).1).settled = some v := by
  unfold handleRequest emitAuthSuccess emitAuthError
  cases r.url with
  | none => exact h
  | some url =>
    by_cases hp : url.pathname = "/callback" <;>
      by_cases he : truthyO url.error = true <;>
        by_cases hk : truthyO url.key = true <;>
          by_cases hsu : s.successUsed = true <;>
            by_cases heu : s.errorUsed = true <;>
              simp_all

/-- Folding further requests over a settled state keeps the settlement. -/
theorem foldl_settled_stable (reqs : List CbRequest) (s : WaitState)
    (v : Except String CallbackData) (h : s.settled = some v) :
    (reqs.foldl (fun s r => (handleRequest s r).1) s).settled = some v := by
  induction reqs generalizing s with
  | nil => exact h
  | cons r rs ih =>
    simp only [List.foldl_cons]
    exact ih _ (handleRequest_settled_stable s r v h)

/-- A meaningful request has a defined settlement value. -/
theorem interpret_meaningful (r : CbRequest) (h : isMeaningful r = true) :
    (interpret r).isSome = true := by
  unfold interpret
  cases hu : r.url with
  | none => unfold isMeaningful at h; rw [hu] at h; simp at h
  | some url =>
    unfold isMeaningful at h
    rw [hu] at h
    by_cases hp : url.pathname = "/callback"
    · simp [hp] at h
      by_cases he : truthyO url.error = true
      · simp [hp, he]
      · have hk : truthyO url.key = true := by
          rcases h with h | h
          · exact absurd h he
          · exact h
        simp [hp, he, hk]
    · simp [hp] at h

/-- A meaningful request processed from the pristine state settles the
promise with its own interpretation. -/
theorem handleRequest_meaningful_pristine (r : CbRequest) (h : isMeaningful r = true) :
    ((handleRequest ({} : WaitState) r).1).settled = interpret r := by
  unfold handleRequest interpret emitAuthSuccess emitAuthError
  cases hu : r.url with
  | none => unfold isMeaningful at h; rw [hu] at h
  | some url =>
    unfold isMeaningful at h
    rw [hu] at h
    by_cases hp : url.pathname = "/callback"
    · by_cases he : truthyO url.error = true
      · simp [hp, he]
      · simp [hp] at h
        have hk : truthyO url.key = true := by
          rcases h with h | h
          · exact absurd h he
          · exact h
        simp [hp, he, hk]
    · simp [hp] at h

/-- The settled value after processing a request sequence is exactly the
interpretation of the first meaningful request. -/
theorem processRequests_settled_eq_first (reqs : List CbRequest) :
    (processRequests reqs).settled = (reqs.find? isMeaningful).bind interpret := by
  unfold processRequests
  induction reqs with
  | nil => rfl
  | cons r rs ih =>
    simp only [List.foldl_cons]
    by_cases hm : isMeaningful r = true
    · rw [List.find?_cons_of_pos _ hm]
      have hbind : (some r).bind interpret = interpret r := rfl
      rw [hbind]
      have hset := handleRequest_meaningful_pristine r hm
      obtain ⟨v, hv⟩ := Option.isSome_iff_exists.mp (interpret_meaningful r hm)
      rw [hv]
      exact foldl_settled_stable rs _ v (hv ▸ hset)
    · have hm' : isMeaningful r = false := by
        cases hx : isMeaningful r
        · rfl
        · exact absurd hx hm
      rw [List.find?_cons_of_neg _ (by simp [hm'])]
      rw [handleRequest_not_meaningful _ r hm']
      exact ih

/-- An early return during input resolution issues no remote call. -/
theorem resolveInput_early (options : Option SyncOptions) (env : SyncEnv)
    (t : SyncTrace) (h : resolveInput options env = .error t) :
    t.checkCalled = false ∧ t.uploadCalled = false ∧ t.triggerCalls = 0 ∧
    t.hookEvent = none ∧ t.bearer = none ∧ t.payload = none ∧ t.logs ≠ [] := by
  simp only [resolveInput] at h
  repeat' split at h
  all_goals
    first
      | exact (Except.noConfusion h)
      | (injection h with h; subst h; simp)

/-- The upload phase records the resolved hook event unchanged. -/
theorem uploadPhase_hookEvent (input : SyncInput) (env : SyncEnv) (apiKey : String)
    (logs0 : List (String × String)) (fileContent : List Nat) (fileHash : String) :
    (uploadPhase input env apiKey logs0 fileContent fileHash).hookEvent = some input.hookEvent := by
  unfold uploadPhase
  repeat' split
  all_goals simp [apply_ite]

/-- The upload phase is only reached through the dedup check. -/
theorem uploadPhase_checkCalled (input : SyncInput) (env : SyncEnv) (apiKey : String)
    (logs0 : List (String × String)) (fileContent : List Nat) (fileHash : String) :
    (uploadPhase input env apiKey logs0 fileContent fileHash).checkCalled = true := by
  unfold uploadPhase
  repeat' split
  all_goals simp [apply_ite]

/-- The upload phase always records the payload it built. -/
theorem uploadPhase_payload (input : SyncInput) (env : SyncEnv) (apiKey : String)
    (logs0 : List (String × String)) (fileContent : List Nat) (fileHash : String) :
    (uploadPhase input env apiKey logs0 fileContent fileHash).payload =
      some (buildPayload input env.gitMeta env.detectedType fileHash
        (env.gzipBase64 fileContent) fileContent.length) := by
  unfold uploadPhase
  repeat' split
  all_goals simp [apply_ite]

/-- The upload phase carries the apiKey it was given as bearer. -/
theorem uploadPhase_bearer (input : SyncInput) (env : SyncEnv) (apiKey : String)
    (logs0 : List (String × String)) (fileContent : List Nat) (fileHash : String) :
    (uploadPhase input env apiKey logs0 fileContent fileHash).bearer = some apiKey := by
  unfold uploadPhase
  repeat' split
  all_goals simp [apply_ite]

/-- Both commit-hash fields of a built payload coincide and equal the
truthiness projection of the HEAD commit hash. -/
theorem buildPayload_commit_fields (input : SyncInput) (gitMeta : GitMetadata)
    (detectedRepoType fileHash content : String) (fileSize : Nat) :
    (buildPayload input gitMeta detectedRepoType fileHash content fileSize).firstCommitHash
      = (buildPayload input gitMeta detectedRepoType fileHash content fileSize).latestCommitHash
    ∧ (buildPayload input gitMeta detectedRepoType fileHash content fileSize).latestCommitHash
      = (if truthyO gitMeta.commitHash then gitMeta.commitHash else none) := by
  simp [buildPayload]

/-- Whenever the dedup check is issued, the bearer credential is the
persisted apiKey of the loaded config. -/
theorem runSync_bearer_from_config (options : Option SyncOptions) (env : SyncEnv)
    (t : SyncTrace)
    (hrun : runSync options env = .ok t) (hcc : t.checkCalled = true) :
    t.bearer = env.config.apiKey := by
  unfold runSync at hrun
  cases hres : resolveInput options env with
  | error te =>
    rw [hres] at hrun
    simp only at hrun
    injection hrun with hrun
    subst hrun
    have hearly := resolveInput_early options env te hres
    simp_all
  | ok input =>
    rw [hres] at hrun
    simp only at hrun
    unfold runSyncWithInput at hrun
    simp only [] at hrun
    repeat' split at hrun
    all_goals try exact (Except.noConfusion hrun)
    all_goals (injection hrun with hrun; subst hrun)
    all_goals simp_all [uploadPhase_bearer, truthyO_some_getD]

/-! ## Claim theorems -/

/-- C1: the spec requires runSync to return normally on every failure
path, but the transcript readFile sits outside every try/catch: in an
environment where the stat gate passes and the read then rejects, the
exception escapes runSync to its caller instead of being logged. -/
theorem runSync_readfile_exception :
    runSync (some optsC1) envC1
      = .error "EACCES: permission denied, open /tmp/sess-1.jsonl"
    ∧ envC1.statOk = true := by
  constructor
  · decide
  · rfl

/-- C2: whenever the dedup check succeeds and reports needsUpload false,
no upload call is made, and the processing trigger is invoked exactly
once when the hook event is SessionEnd and not at all otherwise. -/
theorem runSync_dedup_skip (options : Option SyncOptions) (env : SyncEnv)
    (t : SyncTrace) (r : CheckResp)
    (hrun : runSync options env = .ok t)
    (hcf : env.checkFetch = .ok r) (hok : r.ok = true)
    (hjson : r.json = .ok (some false)) (hcc : t.checkCalled = true) :
    t.uploadCalled = false ∧
    t.triggerCalls = (if t.hookEvent = some "SessionEnd" then 1 else 0) := by
  unfold runSync at hrun
  cases hres : resolveInput options env with
  | error te =>
    rw [hres] at hrun
    simp only at hrun
    injection hrun with hrun
    subst hrun
    have hearly := resolveInput_early options env te hres
    simp_all
  | ok input =>
    rw [hres] at hrun
    simp only at hrun
    unfold runSyncWithInput at hrun
    rw [hcf] at hrun
    simp only [hok, hjson] at hrun
    repeat' split at hrun
    all_goals try exact (Except.noConfusion hrun)
    all_goals (injection hrun with hrun; subst hrun)
    all_goals simp_all

/-- Witness for C2: the SessionEnd run of `optsW2` against `envW2` skips
the upload and triggers processing exactly once. -/
theorem runSync_dedup_skip_witness :
    tW2.uploadCalled = false ∧
    tW2.triggerCalls = (if tW2.hookEvent = some "SessionEnd" then 1 else 0) :=
  runSync_dedup_skip (some optsW2) envW2 tW2
    { ok := true, status := 200, json := .ok (some false) }
    (by decide) (by decide) (by decide) (by decide) (by decide)

/-- C3: whenever the dedup-check request itself rejects, runSync logs
the hash-check failure and returns without issuing the upload or the
processing trigger. -/
theorem runSync_hashcheck_failure (options : Option SyncOptions) (env : SyncEnv)
    (t : SyncTrace) (e : String)
    (hrun : runSync options env = .ok t)
    (hcf : env.checkFetch = .error e) (hcc : t.checkCalled = true) :
    t.uploadCalled = false ∧ t.triggerCalls = 0 ∧
    ("ERROR", "Hash check request failed: " ++ e) ∈ t.logs := by
  unfold runSync at hrun
  cases hres : resolveInput options env with
  | error te =>
    rw [hres] at hrun
    simp only at hrun
    injection hrun with hrun
    subst hrun
    have hearly := resolveInput_early options env te hres
    simp_all
  | ok input =>
    rw [hres] at hrun
    simp only at hrun
    unfold runSyncWithInput at hrun
    rw [hcf] at hrun
    simp only [] at hrun
    repeat' split at hrun
    all_goals try exact (Except.noConfusion hrun)
    all_goals (injection hrun with hrun; subst hrun)
    all_goals simp_all

/-- Witness for C3: the run of `optsW3` against `envW3`, whose dedup
check rejects, logs the failure and makes no further call. -/
theorem runSync_hashcheck_failure_witness :
    tW3.uploadCalled = false ∧ tW3.triggerCalls = 0 ∧
    ("ERROR", "Hash check request failed: " ++ "fetch failed") ∈ tW3.logs :=
  runSync_hashcheck_failure (some optsW3) envW3 tW3 "fetch failed"
    (by decide) (by decide) (by decide)

/-- C4 counterexample: a stdin hook payload with no hook_event_name
resolves to the empty-string hook event, which is neither in the default
enabled set nor the manual sentinel, yet the run reaches the dedup
check, so a network call occurs. -/
theorem runSync_empty_hook_event_reaches_network :
    (runSync none envX4).toOption.map (fun t => (t.hookEvent, t.checkCalled))
      = some (some "", true)
    ∧ DEFAULT_SYNC_HOOKS.contains "" = false
    ∧ "" ≠ "Manual"
    ∧ envX4.config.syncHooks = none := by
  refine ⟨by decide, by decide, by decide, rfl⟩

/-- C4 as amended: for every run whose resolved hook event is non-empty,
not in the configured enabled-hooks set and not the manual sentinel,
runSync makes no network call at all: it logs and returns before the
dedup check, upload or processing trigger. -/
theorem runSync_hook_not_enabled (options : Option SyncOptions) (env : SyncEnv)
    (t : SyncTrace) (h : String)
    (hrun : runSync options env = .ok t)
    (hev : t.hookEvent = some h)
    (hne : truthyS h = true)
    (hmem : (env.config.syncHooks.getD DEFAULT_SYNC_HOOKS).contains h = false)
    (hman : h ≠ "Manual") :
    t.checkCalled = false ∧ t.uploadCalled = false ∧ t.triggerCalls = 0 ∧ t.logs ≠ [] := by
  unfold runSync at hrun
  cases hres : resolveInput options env with
  | error te =>
    rw [hres] at hrun
    simp only at hrun
    injection hrun with hrun
    subst hrun
    have hearly := resolveInput_early options env te hres
    simp_all
  | ok input =>
    rw [hres] at hrun
    simp only at hrun
    unfold runSyncWithInput at hrun
    simp only [] at hrun
    repeat' split at hrun
    all_goals try exact (Except.noConfusion hrun)
    all_goals (injection hrun with hrun; subst hrun)
    all_goals simp_all [uploadPhase_hookEvent, uploadPhase_checkCalled]

/-- Witness for the amended C4: the Stop run of `optsW4` against
`envW4`, whose enabled set is just SessionEnd, stops at the hook gate. -/
theorem runSync_hook_not_enabled_witness :
    tW4.checkCalled = false ∧ tW4.uploadCalled = false ∧
    tW4.triggerCalls = 0 ∧ tW4.logs ≠ [] :=
  runSync_hook_not_enabled (some optsW4) envW4 tW4 "Stop"
    (by decide) (by decide) (by decide) (by decide) (by decide)

/-- C5 counterexample: with the API-key override set in the process
environment and a persisted store lacking an apiKey, getApiKey resolves
to the override, yet the sync engine skips at its credential gate with
no network call: the sync engine reads only the persisted config. -/
theorem syncEngine_ignores_env_override :
    getApiKey penvX5 envX5.config = some "gm_env_override" ∧
    runSync (some optsX5) envX5 =
      .ok { logs := [("INFO", "No apiKey or serverUrl in config - skipping upload (run setup first)")]
            hookEvent := some "Manual" } := by
  constructor
  · decide
  · decide

/-- C5 as amended: getApiKey and getServerUrl resolve environment
override first, then persisted configuration, then default; but the sync
engine loads the persisted config directly, so its credential gate and
remote calls use the persisted apiKey regardless of the overrides. -/
theorem credential_resolution_order (penv : ProcessEnv) (config : GuideModeConfig)
    (options : Option SyncOptions) (env : SyncEnv) (t : SyncTrace) :
    (truthyO penv.guidemodeApiKey = true → getApiKey penv config = penv.guidemodeApiKey) ∧
    (truthyO penv.guidemodeServiceUrl = true →
      getServerUrl penv config = penv.guidemodeServiceUrl.getD "") ∧
    (runSync options env = .ok t → t.checkCalled = true → t.bearer = env.config.apiKey) := by
  refine ⟨?_, ?_, ?_⟩
  · intro h
    unfold getApiKey
    rw [if_pos h]
  · intro h
    unfold getServerUrl
    cases hx : penv.guidemodeServiceUrl with
    | none => rw [hx] at h; simp [truthyO] at h
    | some s =>
      rw [hx] at h
      simp only [truthyO] at h
      simp [h]
  · exact fun hrun hcc => runSync_bearer_from_config options env t hrun hcc

/-- Witness for the amended C5: with both overrides set, getApiKey and
getServerUrl return the override values, while the sync run of `optsW5`
against `envW5` carries the persisted stored-key as bearer. -/
theorem credential_resolution_order_witness :
    getApiKey penvW5 configW5 = some "env-key" ∧
    getServerUrl penvW5 configW5 = "https://env.example" ∧
    tW5.bearer = envW5.config.apiKey :=
  have h := credential_resolution_order penvW5 configW5 (some optsW5) envW5 tW5
  ⟨h.1 (by decide), h.2.1 (by decide), h.2.2 (by decide) (by decide)⟩

/-- C6: the listener is closed on every exit path of loginFlow, and when
no meaningful callback request arrives before the deadline the flow
fails with the authentication-timeout error. -/
theorem loginFlow_timeout_and_teardown (serverUrl : String) (store : GuideModeConfig)
    (env : AuthEnv) :
    (loginFlow serverUrl store env).serverClosed = true ∧
    (env.openResult = .ok () → env.requests.find? isMeaningful = none →
      (loginFlow serverUrl store env).result = .error "Authentication timeout (5 minutes)") := by
  constructor
  · unfold loginFlow
    repeat' split
    all_goals rfl
  · intro hopen hfind
    have hw : waitForCallback env.requests = .error "Authentication timeout (5 minutes)" := by
      unfold waitForCallback
      rw [processRequests_settled_eq_first, hfind]
      rfl
    unfold loginFlow
    rw [hopen, hw]

/-- Witness for C6: an attempt receiving no callback at all times out
with the listener closed. -/
theorem loginFlow_timeout_and_teardown_witness :
    (loginFlow "https://srv" {} envW6).serverClosed = true ∧
    (loginFlow "https://srv" {} envW6).result = .error "Authentication timeout (5 minutes)" :=
  have h := loginFlow_timeout_and_teardown "https://srv" {} envW6
  ⟨h.1, h.2 (by decide) (by decide)⟩

/-- C7: only the first /callback request carrying a truthy error or key
settles the outcome of the wait; every later callback and every request
on another path (answered 404) leaves the settled outcome unchanged. -/
theorem callback_first_event_wins (reqs : List CbRequest) :
    (processRequests reqs).settled = (reqs.find? isMeaningful).bind interpret ∧
    (∀ (s : WaitState) (r : CbRequest), isMeaningful r = false →
      (handleRequest s r).1 = s) ∧
    (∀ (s : WaitState) (r : CbRequest) (u : CbUrl), r.url = some u →
      u.pathname ≠ "/callback" → handleRequest s r = (s, 404)) := by
  refine ⟨processRequests_settled_eq_first reqs, handleRequest_not_meaningful, ?_⟩
  intro s r u hu hp
  unfold handleRequest
  rw [hu]
  simp [hp]

/-- Witness for C7: with a favicon request, then a success callback,
then a late error callback, the outcome is the first success and the
favicon request is answered 404 without touching the state. -/
theorem callback_first_event_wins_witness :
    (processRequests [rqW7c, rqW7a, rqW7b]).settled =
      some (.ok { apiKey := "key-7", tenantId := none, tenantName := none }) ∧
    handleRequest {} rqW7c = ({}, 404) := by
  have h := callback_first_event_wins [rqW7c, rqW7a, rqW7b]
  refine ⟨?_, ?_⟩
  · rw [h.1]
    decide
  · exact h.2.2 {} rqW7c { pathname := "/favicon.ico" } (by decide) (by decide)

/-- C8: when a token is received on the callback but the identity fetch
fails, the acquisition as a whole fails and the persisted store is left
exactly as it was. -/
theorem loginFlow_identity_failure (serverUrl : String) (store : GuideModeConfig)
    (env : AuthEnv) (cb : CallbackData) (m : String)
    (hopen : env.openResult = .ok ())
    (hcb : waitForCallback env.requests = .ok cb)
    (hkey : truthyS cb.apiKey = true)
    (hui : getUserInfo env.sessionResp = .error m) :
    (loginFlow serverUrl store env).result = .error m ∧
    (loginFlow serverUrl store env).store = store := by
  unfold loginFlow
  rw [hopen, hcb, hui]
  simp [hkey]

/-- Witness for C8: an attempt that obtains key-8 but whose identity
fetch rejects fails with that error and leaves the empty store empty. -/
theorem loginFlow_identity_failure_witness :
    (loginFlow "https://srv" {} envW8).result = .error "fetch failed" ∧
    (loginFlow "https://srv" {} envW8).store = {} :=
  loginFlow_identity_failure "https://srv" {} envW8
    { apiKey := "key-8", tenantId := none, tenantName := none } "fetch failed"
    (by decide) (by decide) (by decide) (by decide)

/-- C9 counterexample: a store holding a serverUrl and username but no
apiKey is returned untouched by logoutFlow, so logout does not clear the
store unconditionally. -/
theorem logoutFlow_not_unconditional :
    logoutFlow storeX9 = storeX9 ∧ storeX9 ≠ clearedConfig := by
  constructor
  · decide
  · decide

/-- C9 as amended: logoutFlow clears the store whenever an apiKey is
present, is idempotent, and keeps an already-empty store empty. -/
theorem logoutFlow_conditional_clear (s : GuideModeConfig) :
    (truthyO s.apiKey = true → logoutFlow s = clearedConfig) ∧
    logoutFlow (logoutFlow s) = logoutFlow s ∧
    (s = clearedConfig → logoutFlow s = clearedConfig) := by
  have hempty : logoutFlow clearedConfig = clearedConfig := by decide
  by_cases h : truthyO s.apiKey = true
  · have hcl : logoutFlow s = clearedConfig := by
      unfold logoutFlow
      rw [if_pos h]
    exact ⟨fun _ => hcl, by rw [hcl, hempty], fun _ => hcl⟩
  · have h' : truthyO s.apiKey = false := by
      cases hx : truthyO s.apiKey
      · rfl
      · exact absurd hx h
    have hid : logoutFlow s = s := by
      unfold logoutFlow
      rw [h']
      simp
    exact ⟨fun hc => absurd hc h, by rw [hid, hid], fun hs => by rw [hs, hempty]⟩

/-- Witness for the amended C9: logging out of an authenticated store
clears it, and a second logout leaves it cleared. -/
theorem logoutFlow_conditional_clear_witness :
    logoutFlow sW9 = clearedConfig ∧ logoutFlow (logoutFlow sW9) = logoutFlow sW9 :=
  have h := logoutFlow_conditional_clear sW9
  ⟨h.1 (by decide), h.2.1⟩

/-- C10: in every upload payload built by the sync engine, the
firstCommitHash and latestCommitHash fields are either both absent or
both present and equal, both taken from the HEAD commit hash of the git
metadata; no independent first commit is ever computed. -/
theorem runSync_payload_commit_hashes (options : Option SyncOptions) (env : SyncEnv)
    (t : SyncTrace) (p : UploadPayload)
    (hrun : runSync options env = .ok t) (hp : t.payload = some p) :
    p.firstCommitHash = p.latestCommitHash ∧
    p.latestCommitHash = (if truthyO env.gitMeta.commitHash then env.gitMeta.commitHash else none) := by
  unfold runSync at hrun
  cases hres : resolveInput options env with
  | error te =>
    rw [hres] at hrun
    simp only at hrun
    injection hrun with hrun
    subst hrun
    have hearly := resolveInput_early options env te hres
    simp_all
  | ok input =>
    rw [hres] at hrun
    simp only at hrun
    unfold runSyncWithInput at hrun
    simp only [] at hrun
    repeat' split at hrun
    all_goals try exact (Except.noConfusion hrun)
    all_goals (injection hrun with hrun; subst hrun)
    all_goals simp_all [uploadPhase_payload]
    all_goals (obtain rfl := hp)
    all_goals exact buildPayload_commit_fields input env.gitMeta env.detectedType _ _ _

/-- Witness for C10: the upload payload of the `optsW10` run carries the
HEAD commit hash in both commit fields. -/
theorem runSync_payload_commit_hashes_witness :
    pW10.firstCommitHash = pW10.latestCommitHash ∧
    pW10.latestCommitHash = (if truthyO envW10.gitMeta.commitHash then envW10.gitMeta.commitHash else none) :=
  runSync_payload_commit_hashes (some optsW10) envW10 tW10 pW10 (by decide) (by decide)
